import Mathlib

/-!
Shallow embedding of `tockloader/openocd.py` (class `OpenOCD`).

Conventions used throughout:
  * Python `bytes` values are modelled as `List Nat` (one `Nat` per byte).
  * Python attribute values (`string | integer`, per the device-attribute
    collaborator contract) are modelled by the sum type `Value`.
  * Python `None` is `Option.none`; Python truthiness of each field is
    modelled explicitly (`pyTruthy`, `pyTruthyBytes`): `None`, `''`, `0`
    and `b''` are falsy.
  * The external tool run (`subprocess.run`) is modelled by an `ToolRun`
    record holding the exit code, the captured stdout/stderr text and the
    bytes found in the staged temporary file when it is read back.
  * Printing, the platform check (`platform.system()`), the temp-file
    delete flag and the Windows path-escaping of the temp-file name are
    I/O effects that do not influence any value the functions return; the
    (already escaped) temp-file name is taken as an input `tempName`.
-/

/-- A Python attribute value: a string or an integer
(device attributes are `{key, value}` records with `value: string|integer`). -/
inductive Value where
  | str (s : String)
  | nat (n : Nat)
deriving DecidableEq, Repr

/-- A device attribute record, as yielded by `get_all_attributes`
(an external collaborator; `None`/empty records are modelled by
`Option.none` at the use site). -/
structure Attribute where
  key : String
  value : Value
deriving DecidableEq, Repr

/-- An entry of the `KNOWN_BOARDS` catalog:
`{arch, openocd, page_size, openocd_options?, openocd_prefix?, openocd_commands?}`.
The three optional override fields are named `ovOptions`, `ovPre`,
`ovCommands` here. -/
structure BoardEntry where
  arch : String
  openocd : String
  page_size : Nat
  ovOptions : Option (List String)
  ovPre : Option String
  ovCommands : Option (List (String × String))
deriving DecidableEq, Repr

/-- The mutable state of an `OpenOCD` object (fields inherited from
`BoardInterface`).  `openocdPre` models `self.openocd_prefix` (Python
treats the empty string as "not configured"); `openocd_commands` models
the `self.openocd_commands` dict as an association list; `KNOWN_BOARDS`
is the static catalog (an external data collaborator, carried in the
state so it can be quantified over). -/
structure OpenOCD where
  board : Option Value
  arch : Option Value
  openocd_board : Option Value
  openocd_options : List String
  openocdPre : String
  openocd_commands : List (String × String)
  page_size : Value
  KNOWN_BOARDS : List (String × BoardEntry)
deriving DecidableEq, Repr

/-- Python truthiness of an optional attribute-valued field:
`None`, `''` and `0` are falsy. -/
def pyTruthy : Option Value → Bool
  | none => false
  | some (Value.str s) => !(s == "")
  | some (Value.nat n) => !(n == 0)

/-- Python `x == 0` where `x` is a `Value`: an integer compares
numerically, a string is never equal to `0`. -/
def pyEqZero : Value → Bool
  | Value.nat n => n == 0
  | Value.str _ => false

/-- Python `x > 0` where `x` is a `Value`.  (Python raises `TypeError`
when `x` is a string; the only call site, `determine_current_board`
line 173, runs before any attribute scan, where `page_size` is an
integer by the caller-configuration contract, so the string branch is
unreachable there.) -/
def pyGtZero : Value → Bool
  | Value.nat n => decide (0 < n)
  | Value.str _ => false

/-- Python `str(x)` of an optional value, as used by `str.format` on
`self.openocd_board` (formatting `None` yields the text `None`). -/
def pyStrOpt : Option Value → String
  | none => "None"
  | some (Value.str s) => s
  | some (Value.nat n) => toString n

/-- Python `pat in s` for strings: substring containment. -/
def strContains (s pat : String) : Bool :=
  decide (List.IsInfix pat.data s.data)

/-- Python `'{:#x}'.format(n)` for a non-negative integer: `0x` followed
by lowercase hexadecimal digits. -/
def hexFmt (n : Nat) : String :=
  "0x" ++ String.mk (Nat.toDigits 16 n)

/-- Python truthiness of the `binary` argument (`bytes` or `None`):
`None` and `b''` are falsy. -/
def pyTruthyBytes : Option (List Nat) → Bool
  | none => false
  | some b => !b.isEmpty

/-- The distinct `TockLoaderException` raise sites of the module, told
apart by their message text (`TockErr.message`). -/
inductive TockErr where
  | boardConfigNotFound
  | openocdError
  | hardwareNotConnected
  | boardUndetermined
deriving DecidableEq, Repr

/-- The literal exception messages of the four raise sites. -/
def TockErr.message : TockErr → String
  | TockErr.boardConfigNotFound =>
      "ERROR: Cannot find the board configuration file. You may need to update OpenOCD to the version in latest git master."
  | TockErr.openocdError => "openocd error"
  | TockErr.hardwareNotConnected => "ERROR: Cannot find hardware. Is USB attached?"
  | TockErr.boardUndetermined =>
      "Could not determine the current board or arch or openocd board name"

/-- Behaviour of one external-tool invocation: exit status, captured
stdout and stderr, and the bytes present in the staged temporary file
when it is read back (read path). -/
structure ToolRun where
  returncode : Int
  stdout : String
  stderr : String
  fileContent : List Nat
deriving DecidableEq, Repr

/-- `prefix` clause of `_run_openocd_commands` (lines 59, 65-68):
starts empty, replaced by the work-area-zero directive if the
`workareazero` option is present, replaced wholesale by a configured
`openocd_prefix` (Python truthiness: non-empty). -/
def preClause (s : OpenOCD) : String :=
  let p := ""
  let p := if s.openocd_options.contains "workareazero" then "set WORKAREASIZE 0;" else p
  if s.openocdPre != "" then s.openocdPre else p

/-- `source` clause (lines 60, 69-70): a `source [find board/...]`
directive naming the probe-tool board, emptied when `openocd_board` is
`None`.  (The source formats the board name before the `None` check;
`pyStrOpt` renders `None` as Python's `str` would.) -/
def sourceClause (s : OpenOCD) : String :=
  let src := "source [find board/" ++ pyStrOpt s.openocd_board ++ "];"
  if s.openocd_board == none then "" else src

/-- `cmd_prefix` clause (lines 61, 71-74): full init-reset-halt by
default, init-halt under `noreset`, empty under `nocmdprefix` (checked
after `noreset`, so `nocmdprefix` wins when both are present). -/
def cmdPreClause (s : OpenOCD) : String :=
  let c := "init; reset init; halt;"
  let c := if s.openocd_options.contains "noreset" then "init; halt;" else c
  if s.openocd_options.contains "nocmdprefix" then "" else c

/-- `cmd_suffix` clause (lines 62, 75-76). -/
def cmdSuffixClause (s : OpenOCD) : String :=
  if s.openocd_options.contains "resume" then "soft_reset_halt; resume;" else ""

/-- The full invocation string (line 78-79):
`openocd -c "{prefix} {source} {cmd_prefix} {cmd} {cmd_suffix} exit"`. -/
def openocdCommand (s : OpenOCD) (cmd : String) : String :=
  "openocd -c \"" ++ preClause s ++ " " ++ sourceClause s ++ " " ++ cmdPreClause s
    ++ " " ++ cmd ++ " " ++ cmdSuffixClause s ++ " exit\""

/-- Result of `_run_openocd_commands`: whether a temporary file was
staged, the full command string handed to the external tool, and the
outcome (the Python function raises, returns `None` on the write path,
or returns the read-back bytes on the read path). -/
structure RunResult where
  staged : Bool
  command : String
  outcome : Except TockErr (Option (List Nat))

/-- `_run_openocd_commands` (lines 24-112).  Staging happens when the
binary is truthy or the call is a read (line 38); the staged-file name
is then substituted for `{binary}` (line 53).  A non-zero exit code
raises, specialised by the `Can't find board/` pattern in the combined
stdout+stderr text (lines 94-100; `print_output` concatenates the two
streams, skipping falsy i.e. empty ones, which yields the same string).
With exit code 0, the `Error: No J-Link device found.` pattern in
stdout alone raises (lines 105-107).  Otherwise a read returns the
staged file's content (lines 109-112) and a write returns nothing. -/
def runOpenocdCommands (s : OpenOCD) (tempName : String) (ext : ToolRun)
    (commands : String) (binary : Option (List Nat)) (write : Bool) : RunResult :=
  let doStage := pyTruthyBytes binary || !write
  let commands := if doStage then commands.replace "{binary}" tempName else commands
  let cmd := openocdCommand s commands
  let outcome : Except TockErr (Option (List Nat)) :=
    if ext.returncode != 0 then
      let out := ext.stdout ++ ext.stderr
      if strContains out "Can\x27t find board/" then
        Except.error TockErr.boardConfigNotFound
      else
        Except.error TockErr.openocdError
    else if strContains ext.stdout "Error: No J-Link device found." then
      Except.error TockErr.hardwareNotConnected
    else if write == false then
      Except.ok (some ext.fileContent)
    else
      Except.ok none
  ⟨doStage, cmd, outcome⟩

/-- Python `str.format` restricted to the placeholder forms used by the
per-operation command templates: `{address:#x}`, `{address}`,
`{length}`, and the `{{`/`}}` brace escapes.  (Python's `format` would
raise `KeyError` on an unescaped placeholder with no matching keyword
argument; no claim exercises that path.) -/
def pyFormatCmd (template : String) (address : Nat) (length : Nat) : String :=
  ((((template.replace "\x7baddress:#x\x7d" (hexFmt address)).replace
      "\x7baddress\x7d" (toString address)).replace
      "\x7blength\x7d" (toString length)).replace
      "\x7b\x7b" "\x7b").replace "\x7d\x7d" "\x7d"

/-- The operation command of `flash_binary` (lines 118-126): the
default `program {{binary}} verify {address:#x};` template with the
address substituted (leaving the `{binary}` placeholder for the
runner), or the configured `program` override, formatted. -/
def flash_binary_command (s : OpenOCD) (address : Nat) : String :=
  match List.lookup "program" s.openocd_commands with
  | some c => pyFormatCmd c address 0
  | none => "program {binary} verify " ++ hexFmt address ++ ";"

/-- `flash_binary` up to and including the external-tool run
(lines 114-127); the Python method discards the run's return value. -/
def flash_binary_run (s : OpenOCD) (tempName : String) (ext : ToolRun)
    (address : Nat) (binary : List Nat) : RunResult :=
  runOpenocdCommands s tempName ext (flash_binary_command s address) (some binary) true

/-- `flash_binary` (lines 114-127): returns nothing on success,
propagates the runner's exception otherwise. -/
def flash_binary (s : OpenOCD) (tempName : String) (ext : ToolRun)
    (address : Nat) (binary : List Nat) : Except TockErr Unit :=
  match (flash_binary_run s tempName ext address binary).outcome with
  | Except.error e => Except.error e
  | Except.ok _ => Except.ok ()

/-- The operation command of `read_range` (lines 130-138): the default
`dump_image {{binary}} {address:#x} {length};` template with address
and length substituted, or the configured `read` override, formatted. -/
def read_range_command (s : OpenOCD) (address length : Nat) : String :=
  match List.lookup "read" s.openocd_commands with
  | some c => pyFormatCmd c address length
  | none => "dump_image {binary} " ++ hexFmt address ++ " " ++ toString length ++ ";"

/-- `read_range` (lines 129-150): runs the read command, collects the
returned bytes when truthy (line 143), and truncates to `length` when
the file yielded more (lines 147-148). -/
def read_range (s : OpenOCD) (tempName : String) (ext : ToolRun)
    (address length : Nat) : Except TockErr (List Nat) :=
  match (runOpenocdCommands s tempName ext (read_range_command s address length)
      none false).outcome with
  | Except.error e => Except.error e
  | Except.ok result =>
    let read : List Nat := []
    let read := match result with
      | some bs => if bs.isEmpty then read else read ++ bs
      | none => read
    let read := if read.length > length then List.take length read else read
    Except.ok read

/-- The operation command of `erase_page` (lines 162-169): the default
`flash fillb {address:#x} 0xff 512;` is formatted at its definition
(line 162); the second `format` call (line 169) is then the identity on
it, since the formatted default contains no placeholder, so it is
applied only to the `erase` override here. -/
def erase_page_command (s : OpenOCD) (address : Nat) : String :=
  match List.lookup "erase" s.openocd_commands with
  | some c => pyFormatCmd c address 0
  | none => "flash fillb " ++ hexFmt address ++ " 0xff 512;"

/-- `erase_page` (lines 152-170): builds the erase command, runs it
with no binary on the write path, returns nothing on success. -/
def erase_page (s : OpenOCD) (tempName : String) (ext : ToolRun)
    (address : Nat) : Except TockErr Unit :=
  match (runOpenocdCommands s tempName ext (erase_page_command s address)
      none true).outcome with
  | Except.error e => Except.error e
  | Except.ok _ => Except.ok ()

/-- The early-return test of `determine_current_board` (line 173):
`self.board and self.arch and self.openocd_board and self.page_size>0`,
with Python truthiness. -/
def step1Check (s : OpenOCD) : Bool :=
  pyTruthy s.board && pyTruthy s.arch && pyTruthy s.openocd_board && pyGtZero s.page_size

/-- The catalog test of `determine_current_board` (line 178):
`self.board and self.board in self.KNOWN_BOARDS` — the board must be
truthy (so `''` never hits the catalog) and a string key of the dict. -/
def catalogHit (s : OpenOCD) : Option BoardEntry :=
  if pyTruthy s.board then
    match s.board with
    | some (Value.str b) => List.lookup b s.KNOWN_BOARDS
    | _ => none
  else none

/-- One step of the attribute scan (lines 194-202): for a truthy
attribute, a `board`/`arch` record fills the field only when unset, an
`openocd` record always overwrites, and a `pagesize` record fills the
field only when the current page size equals `0`. -/
def scanStep (s : OpenOCD) (a : Option Attribute) : OpenOCD :=
  match a with
  | none => s
  | some attr =>
    let s := if attr.key == "board" && s.board == none then
      { s with board := some attr.value } else s
    let s := if attr.key == "arch" && s.arch == none then
      { s with arch := some attr.value } else s
    let s := if attr.key == "openocd" then
      { s with openocd_board := some attr.value } else s
    if attr.key == "pagesize" && pyEqZero s.page_size then
      { s with page_size := attr.value } else s

/-- The post-scan failure test (line 205):
`self.board == None or self.arch == None or self.openocd_board == 'cortex-m0' or self.page_size == 0`. -/
def undeterminedCheck (s : OpenOCD) : Bool :=
  s.board == none || s.arch == none
    || s.openocd_board == some (Value.str "cortex-m0") || pyEqZero s.page_size

/-- Result of `determine_current_board`: the final object state,
whether `get_all_attributes` was called, and the raised exception if
any. -/
structure ResolveResult where
  state : OpenOCD
  queried : Bool
  error : Option TockErr
deriving Repr

/-- `determine_current_board` (lines 172-206).  `attributes` is the
sequence that `get_all_attributes` (an external collaborator) would
yield, `Option.none` standing for a falsy (absent) record; `queried`
records whether that collaborator was consulted. -/
def determine_current_board (s : OpenOCD) (attributes : List (Option Attribute)) :
    ResolveResult :=
  if step1Check s then ⟨s, false, none⟩
  else
    match catalogHit s with
    | some entry =>
      let s := { s with arch := some (Value.str entry.arch) }
      let s := { s with openocd_board := some (Value.str entry.openocd) }
      let s := match entry.ovOptions with
        | some o => { s with openocd_options := o }
        | none => s
      let s := match entry.ovPre with
        | some p => { s with openocdPre := p }
        | none => s
      let s := match entry.ovCommands with
        | some c => { s with openocd_commands := c }
        | none => s
      let s := { s with page_size := Value.nat entry.page_size }
      ⟨s, false, none⟩
    | none =>
      let s := attributes.foldl scanStep s
      if undeterminedCheck s then ⟨s, true, some TockErr.boardUndetermined⟩
      else ⟨s, true, none⟩

/-! Helper lemmas about substring containment. -/

/-- Containment in the right part survives prepending. -/
theorem strContains_append_left (x y pat : String) (h : strContains y pat = true) :
    strContains (x ++ y) pat = true := by
  simp only [strContains, decide_eq_true_eq] at h ⊢
  obtain ⟨u, v, huv⟩ := h
  exact ⟨x.data ++ u, v, by rw [show (x ++ y).data = x.data ++ y.data from rfl, ← huv]; simp⟩

/-- Containment in the left part survives appending. -/
theorem strContains_append_right (x y pat : String) (h : strContains x pat = true) :
    strContains (x ++ y) pat = true := by
  simp only [strContains, decide_eq_true_eq] at h ⊢
  obtain ⟨u, v, huv⟩ := h
  exact ⟨u, v ++ y.data, by rw [show (x ++ y).data = x.data ++ y.data from rfl, ← huv]; simp⟩

/-- C2: whenever the external tool exits with status 0 but its captured
stdout contains the no-debug-hardware pattern
`Error: No J-Link device found.`, `_run_openocd_commands` raises the
hardware-not-connected error instead of returning a success outcome,
for every command, binary and write flag. -/
theorem runner_hardware_check (s : OpenOCD) (tempName : String) (ext : ToolRun)
    (commands : String) (binary : Option (List Nat)) (write : Bool)
    (h0 : ext.returncode = 0)
    (h1 : strContains ext.stdout "Error: No J-Link device found." = true) :
    (runOpenocdCommands s tempName ext commands binary write).outcome =
      Except.error TockErr.hardwareNotConnected := by
  simp [runOpenocdCommands, h0, h1]

/-- Witness for C2 at a concrete invocation. -/
theorem runner_hardware_check_witness :
    (runOpenocdCommands ⟨none, none, none, [], "", [], Value.nat 0, []⟩ "tmp"
      ⟨0, "Info: probing. Error: No J-Link device found. bye", "", []⟩
      "init;" none true).outcome = Except.error TockErr.hardwareNotConnected :=
  runner_hardware_check ⟨none, none, none, [], "", [], Value.nat 0, []⟩ "tmp"
    ⟨0, "Info: probing. Error: No J-Link device found. bye", "", []⟩
    "init;" none true rfl (by decide)

/-- C5: whenever the external tool exits with non-zero status, the run
fails: with the board-config-not-found error (whose message instructs
updating OpenOCD) if the combined stdout+stderr output contains the
pattern `Can't find board/`, and with the generic openocd error
otherwise. -/
theorem runner_nonzero_exit (s : OpenOCD) (tempName : String) (ext : ToolRun)
    (commands : String) (binary : Option (List Nat)) (write : Bool)
    (h : ext.returncode ≠ 0) :
    (runOpenocdCommands s tempName ext commands binary write).outcome =
      (if strContains (ext.stdout ++ ext.stderr) "Can\x27t find board/" then
        Except.error TockErr.boardConfigNotFound
      else Except.error TockErr.openocdError) ∧
    strContains (TockErr.message TockErr.boardConfigNotFound)
      "You may need to update OpenOCD" = true := by
  constructor
  · simp [runOpenocdCommands, h]
  · decide

/-- Witness for C5 at a concrete invocation whose output names a
missing board configuration. -/
theorem runner_nonzero_exit_witness :
    (runOpenocdCommands ⟨none, none, none, [], "", [], Value.nat 0, []⟩ "tmp"
      ⟨1, "x Can\x27t find board/nrf52.cfg y", "", []⟩
      "init;" none true).outcome = Except.error TockErr.boardConfigNotFound ∧
    strContains (TockErr.message TockErr.boardConfigNotFound)
      "You may need to update OpenOCD" = true :=
  ⟨((runner_nonzero_exit ⟨none, none, none, [], "", [], Value.nat 0, []⟩ "tmp"
      ⟨1, "x Can\x27t find board/nrf52.cfg y", "", []⟩
      "init;" none true (by decide)).1).trans (if_pos (by decide)),
   (runner_nonzero_exit ⟨none, none, none, [], "", [], Value.nat 0, []⟩ "tmp"
      ⟨1, "x Can\x27t find board/nrf52.cfg y", "", []⟩
      "init;" none true (by decide)).2⟩

/-- C7: in the built command, the prefix clause equals the
work-area-zero directive when the `workareazero` option is present and
no explicit `openocd_prefix` is configured; and a configured (non-empty)
`openocd_prefix` wins over the options, whatever they are. -/
theorem build_pre_clause (s : OpenOCD) :
    (s.openocd_options.contains "workareazero" = true → s.openocdPre = "" →
      preClause s = "set WORKAREASIZE 0;") ∧
    (s.openocdPre ≠ "" → preClause s = s.openocdPre) := by
  constructor
  · intro h1 h2
    have h1m : "workareazero" ∈ s.openocd_options := by simpa using h1
    simp [preClause, h1m, h2]
  · intro h
    simp [preClause, h]

/-- Witness for C7: the work-area-zero directive without an explicit
prefix, and an explicit prefix overriding the same option set. -/
theorem build_pre_clause_witness :
    preClause ⟨none, none, none, ["workareazero"], "", [], Value.nat 0, []⟩ =
      "set WORKAREASIZE 0;" ∧
    preClause ⟨none, none, none, ["workareazero"], "set CHIPNAME nrf52;", [],
      Value.nat 0, []⟩ = "set CHIPNAME nrf52;" :=
  ⟨(build_pre_clause ⟨none, none, none, ["workareazero"], "", [], Value.nat 0, []⟩).1
      (by decide) rfl,
   (build_pre_clause ⟨none, none, none, ["workareazero"], "set CHIPNAME nrf52;", [],
      Value.nat 0, []⟩).2 (by decide)⟩

/-- C8: the preamble is `init; halt;` with no `reset init` step under
the `noreset` option (without `nocmdprefix`); it is empty under the
`nocmdprefix` option; and the source clause is entirely absent when no
probe-tool board name is configured. -/
theorem build_preamble_source (s : OpenOCD) :
    (s.openocd_options.contains "noreset" = true →
     s.openocd_options.contains "nocmdprefix" = false →
      cmdPreClause s = "init; halt;" ∧
      strContains (cmdPreClause s) "reset init" = false) ∧
    (s.openocd_options.contains "nocmdprefix" = true → cmdPreClause s = "") ∧
    (s.openocd_board = none → sourceClause s = "") := by
  refine ⟨?_, ?_, ?_⟩
  · intro h1 h2
    have h1m : "noreset" ∈ s.openocd_options := by simpa using h1
    have h2m : "nocmdprefix" ∉ s.openocd_options := by simpa using h2
    have hc : cmdPreClause s = "init; halt;" := by simp [cmdPreClause, h1m, h2m]
    exact ⟨hc, by rw [hc]; decide⟩
  · intro h
    have hm : "nocmdprefix" ∈ s.openocd_options := by simpa using h
    simp [cmdPreClause, hm]
  · intro h
    simp [sourceClause, h]

/-- Witness for C8 at three concrete option sets. -/
theorem build_preamble_source_witness :
    cmdPreClause ⟨none, none, none, ["noreset"], "", [], Value.nat 0, []⟩ = "init; halt;" ∧
    strContains (cmdPreClause ⟨none, none, none, ["noreset"], "", [], Value.nat 0, []⟩)
      "reset init" = false ∧
    cmdPreClause ⟨none, none, none, ["nocmdprefix"], "", [], Value.nat 0, []⟩ = "" ∧
    sourceClause ⟨none, none, none, [], "", [], Value.nat 0, []⟩ = "" :=
  ⟨((build_preamble_source ⟨none, none, none, ["noreset"], "", [], Value.nat 0, []⟩).1
      (by decide) (by decide)).1,
   ((build_preamble_source ⟨none, none, none, ["noreset"], "", [], Value.nat 0, []⟩).1
      (by decide) (by decide)).2,
   (build_preamble_source ⟨none, none, none, ["nocmdprefix"], "", [], Value.nat 0, []⟩).2.1
      (by decide),
   (build_preamble_source ⟨none, none, none, [], "", [], Value.nat 0, []⟩).2.2 rfl⟩

/-- One scan step never changes an already non-zero page size. -/
theorem scanStep_page_size_of_ne_zero (s : OpenOCD) (a : Option Attribute)
    (h : pyEqZero s.page_size = false) : (scanStep s a).page_size = s.page_size := by
  cases a with
  | none => rfl
  | some attr =>
    simp only [scanStep]
    split_ifs <;> simp_all

/-- C9: a `pagesize` record only assigns the page size when the current
page size is zero, so the whole attribute scan leaves a page size that
is already non-zero — whether set by caller configuration or by an
earlier record — untouched, for every attribute sequence (in particular
one containing `pagesize=0` twice). -/
theorem scan_page_size_monotone (s : OpenOCD) (attrs : List (Option Attribute))
    (h : pyEqZero s.page_size = false) :
    (attrs.foldl scanStep s).page_size = s.page_size := by
  induction attrs generalizing s with
  | nil => rfl
  | cons a rest ih =>
    have hstep := scanStep_page_size_of_ne_zero s a h
    have h' : pyEqZero (scanStep s a).page_size = false := by rw [hstep]; exact h
    simp only [List.foldl_cons]
    rw [ih (scanStep s a) h', hstep]

/-- Witness for C9: a page size of 512 established by configuration
survives a scan that yields `pagesize=0` twice. -/
theorem scan_page_size_monotone_witness :
    (List.foldl scanStep ⟨none, none, none, [], "", [], Value.nat 512, []⟩
      [some ⟨"pagesize", Value.nat 0⟩, some ⟨"pagesize", Value.nat 0⟩]).page_size =
      Value.nat 512 :=
  scan_page_size_monotone ⟨none, none, none, [], "", [], Value.nat 512, []⟩
    [some ⟨"pagesize", Value.nat 0⟩, some ⟨"pagesize", Value.nat 0⟩] (by decide)

/-- C1: on every run that returns (for every external-tool behaviour),
`read_range` yields exactly the first `length` bytes of the staged
destination file — truncating when the file holds more, never padding,
so the result never exceeds `length` bytes nor the bytes actually
read. -/
theorem read_range_truncates (s : OpenOCD) (tempName : String) (ext : ToolRun)
    (address length : Nat)
    (h0 : ext.returncode = 0)
    (h1 : strContains ext.stdout "Error: No J-Link device found." = false) :
    read_range s tempName ext address length =
      Except.ok (List.take length ext.fileContent) ∧
    (List.take length ext.fileContent).length ≤ length ∧
    (List.take length ext.fileContent).length ≤ ext.fileContent.length := by
  refine ⟨?_, ?_, ?_⟩
  · simp only [read_range, runOpenocdCommands, h0, h1]
    simp only [bne_self_eq_false, Bool.false_eq_true, if_false, Bool.false_eq_true]
    by_cases hE : ext.fileContent.isEmpty
    · have : ext.fileContent = [] := by simpa [List.isEmpty_iff] using hE
      simp [this, hE]
    · by_cases hL : ext.fileContent.length > length
      · simp [hE, hL]
      · have hle : ext.fileContent.length ≤ length := Nat.le_of_not_lt hL
        simp [hE, hL, List.take_of_length_le hle]
  · rw [List.length_take]; exact Nat.min_le_left _ _
  · rw [List.length_take]; exact Nat.min_le_right _ _

/-- Witness for C1: a staged file holding four bytes, read with
`length = 2`, yields exactly the first two bytes. -/
theorem read_range_truncates_witness :
    strContains "" "Error: No J-Link device found." = false ∧
    read_range ⟨none, none, none, [], "", [], Value.nat 0, []⟩ "tmp"
      ⟨0, "", "", [1, 2, 3, 4]⟩ 5 2 = Except.ok [1, 2] :=
  ⟨by decide,
   (read_range_truncates ⟨none, none, none, [], "", [], Value.nat 0, []⟩ "tmp"
      ⟨0, "", "", [1, 2, 3, 4]⟩ 5 2 rfl (by decide)).1⟩

/-- C6: with no `erase` command override configured, `erase_page`
builds the command that fills exactly 512 bytes with `0xff` starting at
the address rendered in hexadecimal, and returns nothing on a
successful run. -/
theorem erase_page_default_command (s : OpenOCD) (tempName : String) (ext : ToolRun)
    (address : Nat)
    (hov : List.lookup "erase" s.openocd_commands = none) :
    erase_page_command s address = "flash fillb " ++ hexFmt address ++ " 0xff 512;" ∧
    (ext.returncode = 0 →
     strContains ext.stdout "Error: No J-Link device found." = false →
      erase_page s tempName ext address = Except.ok ()) := by
  constructor
  · simp [erase_page_command, hov]
  · intro h0 h1
    simp [erase_page, runOpenocdCommands, h0, h1]

/-- Witness for C6 at address 500 = 0x1f4. -/
theorem erase_page_default_command_witness :
    erase_page_command ⟨none, none, none, [], "", [], Value.nat 0, []⟩ 500 =
      "flash fillb 0x1f4 0xff 512;" ∧
    erase_page ⟨none, none, none, [], "", [], Value.nat 0, []⟩ "tmp"
      ⟨0, "", "", []⟩ 500 = Except.ok () :=
  ⟨(erase_page_default_command ⟨none, none, none, [], "", [], Value.nat 0, []⟩ "tmp"
      ⟨0, "", "", []⟩ 500 rfl).1.trans (by decide),
   (erase_page_default_command ⟨none, none, none, [], "", [], Value.nat 0, []⟩ "tmp"
      ⟨0, "", "", []⟩ 500 rfl).2 rfl (by decide)⟩

/-- C10: calling `flash_binary` with an empty byte buffer (and the
default `program` template) stages no temporary file and performs no
placeholder substitution: the command handed to the external tool still
contains the literal text `{binary}`. -/
theorem flash_binary_empty_no_staging (s : OpenOCD) (tempName : String) (ext : ToolRun)
    (address : Nat)
    (hov : List.lookup "program" s.openocd_commands = none) :
    (flash_binary_run s tempName ext address []).staged = false ∧
    strContains (flash_binary_run s tempName ext address []).command "{binary}" = true := by
  constructor
  · rfl
  · show strContains (openocdCommand s (flash_binary_command s address)) "{binary}" = true
    have hcmd : strContains (flash_binary_command s address) "{binary}" = true := by
      rw [show flash_binary_command s address =
            "program {binary} verify " ++ hexFmt address ++ ";" by
          simp [flash_binary_command, hov]]
      exact strContains_append_right _ _ _ (strContains_append_right _ _ _ (by decide))
    simp only [openocdCommand]
    exact strContains_append_right _ _ _ (strContains_append_right _ _ _
      (strContains_append_right _ _ _ (strContains_append_left _ _ _ hcmd)))

/-- Witness for C10 at a concrete state and address. -/
theorem flash_binary_empty_no_staging_witness :
    (flash_binary_run ⟨none, none, none, [], "", [], Value.nat 0, []⟩ "tmp"
      ⟨0, "", "", []⟩ 16 []).staged = false ∧
    strContains (flash_binary_run ⟨none, none, none, [], "", [], Value.nat 0, []⟩ "tmp"
      ⟨0, "", "", []⟩ 16 []).command "{binary}" = true :=
  flash_binary_empty_no_staging ⟨none, none, none, [], "", [], Value.nat 0, []⟩ "tmp"
    ⟨0, "", "", []⟩ 16 rfl

/-- The post-scan failure test, written out as a disjunction. -/
theorem undeterminedCheck_iff (s : OpenOCD) :
    undeterminedCheck s = true ↔
      (s.board = none ∨ s.arch = none ∨
       s.openocd_board = some (Value.str "cortex-m0") ∨ pyEqZero s.page_size = true) := by
  simp [undeterminedCheck, or_assoc]

/-- C3: when `determine_current_board` reaches the attribute scan,
resolution fails (with the board-undetermined error) exactly when,
after the scan, the board identity is unset, or the architecture is
unset, or the probe-tool board name equals the sentinel `cortex-m0`, or
the page size is still zero. -/
theorem resolver_fails_iff (s : OpenOCD) (attrs : List (Option Attribute))
    (h1 : step1Check s = false) (h2 : catalogHit s = none) :
    ((determine_current_board s attrs).error = some TockErr.boardUndetermined ↔
      ((attrs.foldl scanStep s).board = none ∨
       (attrs.foldl scanStep s).arch = none ∨
       (attrs.foldl scanStep s).openocd_board = some (Value.str "cortex-m0") ∨
       pyEqZero (attrs.foldl scanStep s).page_size = true)) := by
  have hiff := undeterminedCheck_iff (attrs.foldl scanStep s)
  simp only [determine_current_board, h1, h2, Bool.false_eq_true, if_false]
  split
  next hc => simpa using hiff.mp hc
  next hc =>
    have : ¬(undeterminedCheck (attrs.foldl scanStep s) = true) := hc
    rw [hiff] at this
    simpa using this

/-- Witness for C3: a scan that sets board, arch and a non-zero page
size but leaves the probe-tool board name at `cortex-m0` fails. -/
theorem resolver_fails_iff_witness :
    (determine_current_board ⟨none, none, none, [], "", [], Value.nat 0, []⟩
      [some ⟨"board", Value.str "custom"⟩, some ⟨"arch", Value.str "cortex-m4"⟩,
       some ⟨"openocd", Value.str "cortex-m0"⟩, some ⟨"pagesize", Value.nat 512⟩]).error =
      some TockErr.boardUndetermined :=
  (resolver_fails_iff ⟨none, none, none, [], "", [], Value.nat 0, []⟩
    [some ⟨"board", Value.str "custom"⟩, some ⟨"arch", Value.str "cortex-m4"⟩,
     some ⟨"openocd", Value.str "cortex-m0"⟩, some ⟨"pagesize", Value.nat 512⟩]
    rfl rfl).mpr (Or.inr (Or.inr (Or.inl (by decide))))

/-- C4 (counterexample to the claim as stated): with every profile
field already set — board `hail` present in the catalog, architecture
`riscv`, a probe-tool name and page size 256 — `determine_current_board`
returns without copying the catalog entry: the architecture stays
`riscv`, not the entry's `cortex-m4`, and the page size stays 256, not
the entry's 512. -/
theorem resolver_catalog_counterexample :
    catalogHit ⟨some (Value.str "hail"), some (Value.str "riscv"),
      some (Value.str "stm32.cfg"), [], "", [], Value.nat 256,
      [("hail", ⟨"cortex-m4", "hail.cfg", 512, none, none, none⟩)]⟩ =
      some ⟨"cortex-m4", "hail.cfg", 512, none, none, none⟩ ∧
    (determine_current_board ⟨some (Value.str "hail"), some (Value.str "riscv"),
      some (Value.str "stm32.cfg"), [], "", [], Value.nat 256,
      [("hail", ⟨"cortex-m4", "hail.cfg", 512, none, none, none⟩)]⟩ []).state.arch =
      some (Value.str "riscv") ∧
    some (Value.str "riscv") ≠ some (Value.str "cortex-m4") ∧
    (determine_current_board ⟨some (Value.str "hail"), some (Value.str "riscv"),
      some (Value.str "stm32.cfg"), [], "", [], Value.nat 256,
      [("hail", ⟨"cortex-m4", "hail.cfg", 512, none, none, none⟩)]⟩ []).state.page_size =
      Value.nat 256 ∧ Value.nat 256 ≠ Value.nat 512 := by
  refine ⟨by decide, by decide, by decide, by decide, by decide⟩

/-- C4 (amended): if the board identity is set and matches a catalog
entry, `determine_current_board` performs no attribute query and raises
nothing; and — provided resolution is not already complete (the early
return of line 173) — it copies the architecture, probe-tool board
name, page size and whichever optional fields the entry carries. -/
theorem resolver_catalog (s : OpenOCD) (attrs : List (Option Attribute))
    (entry : BoardEntry) (h : catalogHit s = some entry) :
    (determine_current_board s attrs).queried = false ∧
    (determine_current_board s attrs).error = none ∧
    (step1Check s = false →
      ((determine_current_board s attrs).state.arch = some (Value.str entry.arch) ∧
       (determine_current_board s attrs).state.openocd_board = some (Value.str entry.openocd) ∧
       (determine_current_board s attrs).state.page_size = Value.nat entry.page_size ∧
       (∀ o, entry.ovOptions = some o →
          (determine_current_board s attrs).state.openocd_options = o) ∧
       (∀ p, entry.ovPre = some p →
          (determine_current_board s attrs).state.openocdPre = p) ∧
       (∀ c, entry.ovCommands = some c →
          (determine_current_board s attrs).state.openocd_commands = c))) := by
  by_cases hs : step1Check s
  · simp [determine_current_board, hs]
  · cases ho : entry.ovOptions <;> cases hp : entry.ovPre <;> cases hc : entry.ovCommands <;>
      simp_all [determine_current_board, hs, h]

/-- Witness for C4 (amended): the spec's example — config
`{board: "hail"}`, catalog entry
`hail -> {arch: cortex-m4, openocd: hail.cfg, page_size: 512}` — yields
architecture `cortex-m4` and page size 512 with no attribute query,
even though a contradicting `arch` attribute is available. -/
theorem resolver_catalog_witness :
    (determine_current_board ⟨some (Value.str "hail"), none, none, [], "", [], Value.nat 0,
      [("hail", ⟨"cortex-m4", "hail.cfg", 512, none, none, none⟩)]⟩
      [some ⟨"arch", Value.str "riscv"⟩]).queried = false ∧
    (determine_current_board ⟨some (Value.str "hail"), none, none, [], "", [], Value.nat 0,
      [("hail", ⟨"cortex-m4", "hail.cfg", 512, none, none, none⟩)]⟩
      [some ⟨"arch", Value.str "riscv"⟩]).state.arch = some (Value.str "cortex-m4") ∧
    (determine_current_board ⟨some (Value.str "hail"), none, none, [], "", [], Value.nat 0,
      [("hail", ⟨"cortex-m4", "hail.cfg", 512, none, none, none⟩)]⟩
      [some ⟨"arch", Value.str "riscv"⟩]).state.page_size = Value.nat 512 :=
  ⟨(resolver_catalog ⟨some (Value.str "hail"), none, none, [], "", [], Value.nat 0,
      [("hail", ⟨"cortex-m4", "hail.cfg", 512, none, none, none⟩)]⟩
      [some ⟨"arch", Value.str "riscv"⟩]
      ⟨"cortex-m4", "hail.cfg", 512, none, none, none⟩ (by decide)).1,
   ((resolver_catalog ⟨some (Value.str "hail"), none, none, [], "", [], Value.nat 0,
      [("hail", ⟨"cortex-m4", "hail.cfg", 512, none, none, none⟩)]⟩
      [some ⟨"arch", Value.str "riscv"⟩]
      ⟨"cortex-m4", "hail.cfg", 512, none, none, none⟩ (by decide)).2.2 (by decide)).1,
   ((resolver_catalog ⟨some (Value.str "hail"), none, none, [], "", [], Value.nat 0,
      [("hail", ⟨"cortex-m4", "hail.cfg", 512, none, none, none⟩)]⟩
      [some ⟨"arch", Value.str "riscv"⟩]
      ⟨"cortex-m4", "hail.cfg", 512, none, none, none⟩ (by decide)).2.2 (by decide)).2.2.1⟩
